import Mathlib

/-
Verification of the UniversalCameraViewer scripts (asiofinder.py,
capture_app.py, guiver/main.py, other.py) against their natural-language
specification.  The Python sources are shallowly embedded below: pure
helpers become Lean functions, the worker-thread loops become fuel-indexed
effect lists, and the shutdown protocol becomes a labelled transition
system.  All definitions are executable.
-/

namespace UCV

/-! ## Video capture backends (capture_app.py / guiver/main.py, VideoThread.run) -/

/-- The two OpenCV capture backends `VideoThread.run` tries:
`cv2.CAP_DSHOW` and `cv2.CAP_MSMF`. -/
inductive Backend
  | dshow
  | msmf
  deriving DecidableEq, Repr

/-- Embedding of the capture-opening phase of `VideoThread.run`
(src/capture_app.py lines 45-53 and the identical src/guiver/main.py
lines 142-150): `cap = cv2.VideoCapture(idx, cv2.CAP_DSHOW)`; if the
handle is not opened, one retry with `cv2.CAP_MSMF`; if still not opened,
the thread gives up.  `opens b` says whether backend `b` can open this
device.  The result is the list of backends attempted, in order, paired
with the backend that ended up providing the handle (if any). -/
def openVideoCapture (opens : Backend → Bool) : List Backend × Option Backend :=
  if opens Backend.dshow then ([Backend.dshow], some Backend.dshow)
  else if opens Backend.msmf then ([Backend.dshow, Backend.msmf], some Backend.msmf)
  else ([Backend.dshow, Backend.msmf], none)

/-! ## Device-selection prompts -/

/-- Embedding of `prompt_selection` (src/capture_app.py lines 149-158).
The interactive loop reads one line per iteration: `some c` models a line
that `int(...)` parses as the integer `c`, and `none` models a line that
raises `ValueError`.  The loop returns the first entered integer `c` with
`0 <= c < max_index` and retries on anything else; with the (finite)
modelled input list exhausted it is still waiting for input, modelled as
`none`. -/
def prompt_selection (max_index : Int) : List (Option Int) → Option Int
  | [] => none
  | none :: rest => prompt_selection max_index rest
  | some choice :: rest =>
      if 0 ≤ choice ∧ choice < max_index then some choice
      else prompt_selection max_index rest

/-- Embedding of `prompt_selection_gui` (src/guiver/main.py lines 316-324).
`QInputDialog.getItem` is called with `editable = False`, so the dialog can
only hand back one of the items it was given, which are the strings
`"i: name"` for the positions `i` of `options`; `sel` is the user's
selection (`none` models a cancelled dialog, after which the code shows an
error dialog and calls `sys.exit(1)`, so no index is returned).  The code
recovers the leading index of the chosen item with
`int(item.split(":")[0])`, i.e. the position of the selected option. -/
def prompt_selection_gui (options : List String) (sel : Option (Fin options.length)) :
    Option Nat :=
  match sel with
  | some k => some k.val
  | none => none

/-! ## Script-level action summaries (C5, C6) -/

/-- The device/GUI actions visible at the top level of each script: querying
a device list from the OS, interactively prompting the user for a
selection, spawning a worker QThread, opening the video and the audio
handle, and pumping captured frames into a window. -/
inductive Action
  | listDevices
  | promptUser
  | spawnVideoThread
  | spawnAudioThread
  | openVideo
  | openAudio
  | pumpFrames
  deriving DecidableEq, Repr

/-- Actions of src/capture_app.py `main` (lines 161-191), in program order:
`list_video_devices_with_names()`, `prompt_selection` for video,
`list_audio_input_devices_filtered()`, `prompt_selection` for audio, then
`AudioStream(...).start()` (whose `run` opens the `sd.Stream` audio
handle), and `CaptureWindow.__init__` (lines 100-102) which starts a
`VideoThread` (whose `run` opens the capture handle and loops emitting
frame pixmaps into the window). -/
def capture_app_actions : List Action :=
  [Action.listDevices, Action.promptUser, Action.listDevices, Action.promptUser,
   Action.spawnAudioThread, Action.openAudio,
   Action.spawnVideoThread, Action.openVideo, Action.pumpFrames]

/-- Actions of src/guiver/main.py `main` (lines 330-389), in program order:
`list_video_devices_with_names()`, `prompt_selection_gui` for video,
`list_rtmixer_devices_by_apis` plus `list_audio_input_devices_filtered`,
`prompt_selection_gui` for audio, `audio_thread.start()` (the thread opens
its audio stream), and `CaptureWindow.__init__` (lines 221-225) which
starts the `VideoThread` that opens the capture handle and pumps frames
into the window. -/
def guiver_main_actions : List Action :=
  [Action.listDevices, Action.promptUser, Action.listDevices, Action.promptUser,
   Action.spawnAudioThread, Action.openAudio,
   Action.spawnVideoThread, Action.openVideo, Action.pumpFrames]

/-- Actions of src/asiofinder.py (whole module): it prints the host-API
list, and, when an ASIO host API exists (`asioFound`), additionally prints
the devices of that host API.  It never prompts, never opens a handle,
never shows a window. -/
def asiofinder_actions (asioFound : Bool) : List Action :=
  Action.listDevices :: (if asioFound then [Action.listDevices] else [])

/-- Actions of src/other.py `TestCamera.__init__` (lines 19-27): it reads
`QMediaDevices.videoInputs()`, and with no prompt opens `cameras[0]` as a
`QCamera` whose viewfinder renders the frames.  No audio handle is opened
and no worker thread is spawned by this code. -/
def other_actions : List Action :=
  [Action.listDevices, Action.openVideo, Action.pumpFrames]

/-- Boolean order-respecting subsequence test on action lists. -/
def isSubseqOf : List Action → List Action → Bool
  | [], _ => true
  | _ :: _, [] => false
  | a :: as, b :: bs => if a = b then isSubseqOf as bs else isSubseqOf (a :: as) bs

/-- The pipeline claimed by the spec for every script: list devices, then
prompt the user, then open one video and one audio handle (in either
order), then pump frames into a window — as an in-order subsequence of the
script's actions. -/
def fullPipeline (acts : List Action) : Prop :=
  (isSubseqOf [Action.listDevices, Action.promptUser, Action.openAudio,
      Action.openVideo, Action.pumpFrames] acts ||
   isSubseqOf [Action.listDevices, Action.promptUser, Action.openVideo,
      Action.openAudio, Action.pumpFrames] acts) = true

/-- Number of worker-thread spawns among a list of actions. -/
def countSpawns (acts : List Action) : Nat :=
  acts.countP fun a =>
    a == Action.spawnVideoThread || a == Action.spawnAudioThread

/-! ## Error-handling effects (C2) -/

/-- Observable effects of the scripts' error-handling paths: console
prints, debug-window lines, modal dialogs, `sys.exit`, falling off the end
of `main` at module toplevel (which also ends the interpreter process), a
worker thread's `run` returning (which ends only that thread), and the
point where a happy path proceeds with the rest of its work. -/
inductive Eff
  | print (msg : String)
  | emitDebug (msg : String)
  | dialog (msg : String)
  | sysExit (code : Nat)
  | mainReturn
  | threadReturn
  | proceed
  deriving DecidableEq, Repr

/-- An effect that ends the whole process: an explicit `sys.exit`, or
returning from `main()` at module toplevel (the script then finishes and
the interpreter exits). -/
def isProcessExit : Eff → Bool
  | Eff.sysExit _ => true
  | Eff.mainReturn => true
  | _ => false

/-- An effect that reports the situation to the user: a console print, a
debug-window line, or a modal dialog. -/
def isReport : Eff → Bool
  | Eff.print _ => true
  | Eff.emitDebug _ => true
  | Eff.dialog _ => true
  | _ => false

/-- Whether an effect list ends the process. -/
def processExits (effs : List Eff) : Bool := effs.any isProcessExit

/-- Whether an effect list reports to the user. -/
def reports (effs : List Eff) : Bool := effs.any isReport

/-- Embedding of the open/fallback phase of `VideoThread.run` in
src/capture_app.py (lines 45-54): the prints it performs as a function of
which backend attempts succeed, ending either with the thread returning
early (both opens failed) or with the thread proceeding to the capture
loop. -/
def videoThreadRun_ca (dshowOk msmfOk : Bool) : List Eff :=
  Eff.print "Trying to open video device with CAP_DSHOW..." ::
    (if dshowOk then
      [Eff.print "Camera device opened successfully.", Eff.proceed]
    else
      Eff.print "CAP_DSHOW failed, trying CAP_MSMF for device..." ::
        (if msmfOk then
          [Eff.print "Camera device opened successfully.", Eff.proceed]
        else
          [Eff.print "Failed to open camera device with both CAP_DSHOW and CAP_MSMF.",
           Eff.threadReturn]))

/-- Embedding of the open/fallback phase of `VideoThread.run` in
src/guiver/main.py (lines 142-151); identical to the capture_app variant
except that messages go to the debug window. -/
def videoThreadRun_g (dshowOk msmfOk : Bool) : List Eff :=
  Eff.emitDebug "Trying to open video device with CAP_DSHOW..." ::
    (if dshowOk then
      [Eff.emitDebug "Camera device opened successfully.", Eff.proceed]
    else
      Eff.emitDebug "CAP_DSHOW failed, trying CAP_MSMF for device..." ::
        (if msmfOk then
          [Eff.emitDebug "Camera device opened successfully.", Eff.proceed]
        else
          [Eff.emitDebug "Failed to open camera device with both CAP_DSHOW and CAP_MSMF.",
           Eff.threadReturn]))

/-- Embedding of `AudioStream.run` in src/capture_app.py (lines 16-29):
the body is one `try` around opening the `sd.Stream`; on an exception the
handler prints the error and the thread's `run` returns. -/
def audioStreamRun_ca (openFails : Bool) : List Eff :=
  Eff.print "Starting audio stream on device index..." ::
    (if openFails then
      [Eff.print "Audio stream error: ...", Eff.threadReturn]
    else
      [Eff.print "Audio stream started successfully.", Eff.proceed])

/-- Embedding of `AudioStreamSD.run` in src/guiver/main.py (lines 60-73):
same shape as the capture_app audio thread, reporting through the debug
signal. -/
def audioStreamRun_g (openFails : Bool) : List Eff :=
  Eff.emitDebug "Starting sounddevice audio stream on device index with low latency..." ::
    (if openFails then
      [Eff.emitDebug "Sounddevice audio stream error: ...", Eff.threadReturn]
    else
      [Eff.emitDebug "Sounddevice audio stream started successfully.", Eff.proceed])

/-- Effects of the no-video-devices path of src/capture_app.py `main`
(lines 162-165, together with the print inside
`list_video_devices_with_names`, lines 125-126): two prints, then `return`
from `main`, which ends the script. -/
def captureAppMain_noVideoDevices : List Eff :=
  [Eff.print "No video devices found.",
   Eff.print "No video devices detected. Exiting.",
   Eff.mainReturn]

/-- Effects of the no-matching-audio-devices path of src/capture_app.py
`main` (lines 168-171, with the print inside
`list_audio_input_devices_filtered`, lines 140-141). -/
def captureAppMain_noAudioDevices : List Eff :=
  [Eff.print "No matching audio input devices found.",
   Eff.print "No matching audio input devices detected. Exiting.",
   Eff.mainReturn]

/-- Effects of the no-video-devices path of src/guiver/main.py `main`
(lines 337-339): a debug line, then `sys.exit(1)`. -/
def guiverMain_noVideoDevices : List Eff :=
  [Eff.emitDebug "No video devices detected. Exiting.", Eff.sysExit 1]

/-- Effects of the no-audio-devices path of src/guiver/main.py `main`
(lines 363-365): a debug line, then `sys.exit(1)`. -/
def guiverMain_noAudioDevices : List Eff :=
  [Eff.emitDebug "No audio input devices found. Exiting.", Eff.sysExit 1]

/-- Effects of the no-cameras path of src/other.py `TestCamera.__init__`
(lines 19-22): a critical dialog, then `sys.exit(1)`. -/
def other_noCameras : List Eff :=
  [Eff.dialog "No cameras found", Eff.sysExit 1]

/-- Effects of src/other.py `TestCamera.camera_error` (lines 29-31): a
critical dialog, then `sys.exit(1)`. -/
def other_cameraError : List Eff :=
  [Eff.dialog "Camera error", Eff.sysExit 1]

/-! ## Python string primitives used by the audio filters -/

/-- Python's `str.lower()` on the character lists the scripts handle
(ASCII device names): lowercase every character. -/
def pyLower (s : String) : String := String.mk (s.data.map Char.toLower)

/-- Whether `needle` is a prefix of the character list `hay`. -/
def listStartsWith : List Char → List Char → Bool
  | [], _ => true
  | _ :: _, [] => false
  | c :: cs, d :: ds => c == d && listStartsWith cs ds

/-- Whether `needle` occurs as a contiguous run inside the character
list. -/
def listContainsSub (needle : List Char) : List Char → Bool
  | [] => needle.isEmpty
  | d :: ds => listStartsWith needle (d :: ds) || listContainsSub needle ds

/-- Python's substring test `needle in hay`. -/
def strIn (needle hay : String) : Bool := listContainsSub needle.data hay.data

/-! ## Audio device records and the two filter functions (C8, C10) -/

/-- The fields of a `sd.query_devices()` record that the scripts read: the
device name, `max_input_channels`, and the index of the device's host API.
Python compares these dict records structurally, which the derived
decidable equality mirrors. -/
structure AudioDev where
  name : String
  max_input_channels : Int
  hostapi : Nat
  deriving DecidableEq, Repr

/-- The filter condition of `list_audio_input_devices_filtered` in
src/capture_app.py (line 136): positive input channels, and the name
contains `'elgato'` (case-insensitively), `'avermedia'` (against the raw
name — the source does not lowercase this one), or `'evga'`
(case-insensitively). -/
def captureAppAudioMatch (d : AudioDev) : Bool :=
  decide (0 < d.max_input_channels) &&
    (strIn "elgato" (pyLower d.name) || strIn "avermedia" d.name ||
      strIn "evga" (pyLower d.name))

/-- The filter condition of `list_audio_input_devices_filtered` in
src/guiver/main.py (lines 305-309): positive input channels, and the
lowercased name contains `'elgato'`, `'avermedia'`, or `'evga'`. -/
def guiverAudioMatch (d : AudioDev) : Bool :=
  decide (0 < d.max_input_channels) &&
    (strIn "elgato" (pyLower d.name) || strIn "avermedia" (pyLower d.name) ||
      strIn "evga" (pyLower d.name))

/-- Modelled from the spec claim being checked (claim C8): select exactly
the devices with positive `max_input_channels` whose name contains
`'elgato'`, `'avermedia'`, or `'evga'` under case-insensitive matching. -/
def specAudioMatch (d : AudioDev) : Bool :=
  decide (0 < d.max_input_channels) &&
    (strIn "elgato" (pyLower d.name) || strIn "avermedia" (pyLower d.name) ||
      strIn "evga" (pyLower d.name))

/-- Embedding of `list_audio_input_devices_filtered` in src/capture_app.py
(lines 130-146): one pass over `sd.query_devices()` appending each
matching record and its name.  (The early `return [], []` when nothing
matches yields the same value as the general path.) -/
def list_audio_input_devices_filtered_ca (devices : List AudioDev) :
    List AudioDev × List String :=
  match devices with
  | [] => ([], [])
  | d :: rest =>
      let r := list_audio_input_devices_filtered_ca rest
      if captureAppAudioMatch d then (d :: r.1, d.name :: r.2) else r

/-- The `for i, dev in enumerate(devices)` loop of
`list_audio_input_devices_filtered` in src/guiver/main.py (lines 304-313),
started at enumeration index `i`: appends, for each matching device, the
record, its name decorated with the host-API name
(`hostapis[dev['hostapi']]['name']`), and its global sounddevice index. -/
def guiverFilterFrom (hostapis : List String) : List AudioDev → Nat →
    List AudioDev × List String × List Nat
  | [], _ => ([], [], [])
  | d :: rest, i =>
      let r := guiverFilterFrom hostapis rest (i + 1)
      if guiverAudioMatch d then
        (d :: r.1, (d.name ++ " (" ++ hostapis.getD d.hostapi "" ++ ")") :: r.2.1,
          i :: r.2.2)
      else r

/-- Embedding of `list_audio_input_devices_filtered` in src/guiver/main.py
(lines 294-314): devices, decorated names, and global indices, built in
one enumerated pass. -/
def list_audio_input_devices_filtered_g (devices : List AudioDev)
    (hostapis : List String) : List AudioDev × List String × List Nat :=
  guiverFilterFrom hostapis devices 0

/-- Enumerate-and-filter: the specification-level companion of the
enumerated filtering loops — the list of (position, element) pairs of the
elements satisfying `p`, positions counted from `i`. -/
def enumFilter {α : Type} (p : α → Bool) : List α → Nat → List (Nat × α)
  | [], _ => []
  | d :: rest, i =>
      if p d then (i, d) :: enumFilter p rest (i + 1)
      else enumFilter p rest (i + 1)

/-- Python's `list.index(x)` on a device list: the position of the first
element equal to `x` (CPython scans left to right and returns the first
hit; on the call site in src/capture_app.py line 176 the element is always
present, so the absent case — where this model returns the length — is
never reached). -/
def pyListIndex (l : List AudioDev) (x : AudioDev) : Nat :=
  match l with
  | [] => 0
  | a :: rest => if a = x then 0 else pyListIndex rest x + 1

/-- Number of occurrences of a device record in a device list, under the
structural equality Python uses for dicts. -/
def countEq (x : AudioDev) : List AudioDev → Nat
  | [] => 0
  | a :: rest => (if a = x then 1 else 0) + countEq x rest

/-- A capture-card audio device whose vendor spells its name `AVerMedia`:
the case-sensitivity counterexample for claim C8. -/
def averMediaDev : AudioDev :=
  { name := "AVerMedia Live Gamer", max_input_channels := 2, hostapi := 0 }

/-- An Elgato capture-card audio device, used as a concrete witness
input. -/
def elgatoDev : AudioDev :=
  { name := "Elgato Game Capture", max_input_channels := 2, hostapi := 0 }

/-! ## Worker-thread loops (C7) -/

/-- Effects of one pass of the video capture loop: emitting a frame
pixmap, sleeping 10 ms after a failed read, and the final
`cap.release()`. -/
inductive VideoEff
  | emitFrame
  | sleepRetry
  | release
  deriving DecidableEq, Repr

/-- Embedding of the capture loop of `VideoThread.run`
(src/capture_app.py lines 65-78, same loop in src/guiver/main.py lines
168-194): the guard `while self.running and cap.isOpened()` reads the
`running` flag at the top of every iteration; a successful `cap.read()`
emits a frame pixmap, a failed one sleeps 10 ms and retries; when the
guard fails the loop exits and `cap.release()` runs.  `running i`,
`capOpened i` and `readOk i` are the values those calls observe at
iteration `i`; `fuel` bounds how many iterations the model unrolls (the
empty result means the loop was still running when the fuel ran out). -/
def videoCaptureLoop (running capOpened readOk : Nat → Bool) :
    Nat → Nat → List VideoEff
  | 0, _ => []
  | fuel + 1, i =>
      if running i && capOpened i then
        (if readOk i then [VideoEff.emitFrame] else [VideoEff.sleepRetry]) ++
          videoCaptureLoop running capOpened readOk fuel (i + 1)
      else [VideoEff.release]

/-- Effects of the audio polling loop: one `sd.sleep(100)` poll, and the
stream close performed when the `with sd.Stream(...)` block is left. -/
inductive AudioEff
  | sleepPoll
  | closeStream
  deriving DecidableEq, Repr

/-- Embedding of the polling loop of the audio threads (`AudioStream.run`,
src/capture_app.py lines 24-27, and `AudioStreamSD.run`,
src/guiver/main.py lines 68-71): `while self.running: sd.sleep(100)`
inside the `with sd.Stream(...)` block, whose exit closes the stream
handle. -/
def audioStreamLoop (running : Nat → Bool) : Nat → Nat → List AudioEff
  | 0, _ => []
  | fuel + 1, i =>
      if running i then
        AudioEff.sleepPoll :: audioStreamLoop running fuel (i + 1)
      else [AudioEff.closeStream]

/-! ## rtmixer device enumeration and the combined audio list (C9) -/

/-- The fields of an rtmixer `get_device_info(i)` record that
src/guiver/main.py reads: the device name and its `inputChannels`. -/
structure RtDev where
  name : String
  inputChannels : Int
  deriving DecidableEq, Repr

/-- The filter condition of the rtmixer device loop
(src/guiver/main.py line 286): `info['inputChannels'] > 0`. -/
def rtInputMatch (d : RtDev) : Bool := decide (0 < d.inputChannels)

/-- Embedding of `get_rtmixer_api_by_name` (src/guiver/main.py lines
258-264): scan the `rtmixer.Api` enumeration — modelled by the list
`apis` of its member names — for the first member whose name matches
case-insensitively; `none` when there is no match.  (The `if not rtmixer`
early exit is handled by the `installed` flag of the enumeration
below.) -/
def get_rtmixer_api_by_name (apis : List String) (name : String) : Option String :=
  apis.find? fun a => pyLower a == pyLower name

/-- The `for i in range(mixer.get_device_count())` loop of
`list_rtmixer_devices_by_apis` (src/guiver/main.py lines 284-290), run
over one API's device list starting at local device index `i`: for each
device with input channels it appends, in lockstep, the record, the name
decorated with the preferred API name, the local device index, and the
API enumeration member. -/
def rtDevLoop (apiName api : String) : List RtDev → Nat →
    List RtDev × List String × List Nat × List String
  | [], _ => ([], [], [], [])
  | d :: rest, i =>
      let r := rtDevLoop apiName api rest (i + 1)
      if rtInputMatch d then
        (d :: r.1, (d.name ++ " (" ++ apiName ++ ")") :: r.2.1,
          i :: r.2.2.1, api :: r.2.2.2)
      else r

/-- The `for api_name in preferred_api_names` loop of
`list_rtmixer_devices_by_apis` (src/guiver/main.py lines 279-291):
preferred API names that do not resolve to an `rtmixer.Api` member are
skipped; the per-API results are concatenated in order.  `devsOf api` is
the device list the `rtmixer.RtMixer(api=api)` instance reports. -/
def rtOuterLoop (apis : List String) (devsOf : String → List RtDev) :
    List String → List RtDev × List String × List Nat × List String
  | [] => ([], [], [], [])
  | apiName :: rest =>
      let r := rtOuterLoop apis devsOf rest
      match get_rtmixer_api_by_name apis apiName with
      | none => r
      | some api =>
          let c := rtDevLoop apiName api (devsOf api) 0
          (c.1 ++ r.1, c.2.1 ++ r.2.1, c.2.2.1 ++ r.2.2.1, c.2.2.2 ++ r.2.2.2)

/-- Embedding of `list_rtmixer_devices_by_apis` (src/guiver/main.py lines
266-292): with rtmixer not installed it returns four empty lists,
otherwise the four parallel lists devices, names, indices, apis built by
the nested loops. -/
def list_rtmixer_devices_by_apis (installed : Bool) (apis : List String)
    (devsOf : String → List RtDev) (prefNames : List String) :
    List RtDev × List String × List Nat × List String :=
  if installed then rtOuterLoop apis devsOf prefNames else ([], [], [], [])

/-- The `device_source` marks of src/guiver/main.py line 353: each
combined audio entry is tagged with the backend it came from. -/
inductive Src
  | rtmixer
  | sounddevice
  deriving DecidableEq, Repr

/-- Embedding of the combining loops of src/guiver/main.py `main` (lines
352-361): the rtmixer names, suffixed `" [RtMixer]"` and marked
`'rtmixer'`, followed by the fallback names, suffixed `" [SoundDevice]"`
and marked `'sounddevice'`. -/
def combineAudioLists (rtNames fbNames : List String) : List String × List Src :=
  (rtNames.map (fun n => n ++ " [RtMixer]") ++
     fbNames.map (fun n => n ++ " [SoundDevice]"),
   rtNames.map (fun _ => Src.rtmixer) ++ fbNames.map (fun _ => Src.sounddevice))

/-- Specification-level entry list of the rtmixer enumeration: one tuple
(preferred API name, resolved API member, local device index, device) per
produced row, used to state that the four lists of
`list_rtmixer_devices_by_apis` are its four projections. -/
def rtEntries (apis : List String) (devsOf : String → List RtDev) :
    List String → List (String × String × Nat × RtDev)
  | [] => []
  | apiName :: rest =>
      (match get_rtmixer_api_by_name apis apiName with
       | none => []
       | some api =>
           (enumFilter rtInputMatch (devsOf api) 0).map
             fun q => (apiName, api, q.1, q.2)) ++
        rtEntries apis devsOf rest

/-! ## Shutdown protocol (C1) -/

/-- Observable events around `CaptureWindow.closeEvent`
(src/capture_app.py lines 108-116, src/guiver/main.py lines 231-243):
the main thread clearing each worker's `running` flag, each join
returning, the widgets being destroyed, and the worker threads' UI
updates (a frame pixmap from the video thread, a debug line or audio
status from the audio thread). -/
inductive Ev
  | stopVideo
  | joinVideo
  | stopAudio
  | joinAudio
  | closeWindow
  | videoEmit
  | audioEmit
  deriving DecidableEq, Repr

/-- Whether an event is performed by the main (GUI) thread inside
`closeEvent`, as opposed to being emitted by a worker thread. -/
def isMainEv : Ev → Bool
  | Ev.videoEmit => false
  | Ev.audioEmit => false
  | _ => true

/-- The main-thread event sequence of `closeEvent`, in source order:
`self.thread.stop()` first clears the video flag and then `wait()`s,
`self.audio_thread.stop()` clears the audio flag and `wait()`s (the extra
`self.audio_thread.wait()` observes nothing new), then the window closes
(`QApplication.quit()`; `event.accept()`). -/
def mainScript : List Ev :=
  [Ev.stopVideo, Ev.joinVideo, Ev.stopAudio, Ev.joinAudio, Ev.closeWindow]

/-- Joint state of the `closeEvent` shutdown: the main thread's position
inside `closeEvent` (`pc`), whether each worker thread's `run` has
finished (`vTerm`, `aTerm`), the two shared `running` flags, and whether
the widgets have been destroyed. -/
structure ShutdownState where
  pc : Nat
  vTerm : Bool
  aTerm : Bool
  vRunning : Bool
  aRunning : Bool
  closed : Bool
  deriving DecidableEq, Repr

/-- Labelled transitions of the shutdown protocol.  Main-thread steps
follow `closeEvent` line by line: `pc = 0` clears the video `running`
flag (`VideoThread.stop`, line 80-82 of capture_app.py sets the flag
before `self.wait()`), `pc = 1` is that `wait()`, which can only return
once the video thread's `run` has finished; `pc = 2` and `pc = 3` do the
same for the audio thread (`AudioStream.stop`), `pc = 4` is the extra
`audio_thread.wait()` (silent), and `pc = 5` destroys the widgets.  A
worker thread, as long as its `run` has not finished, may emit a UI
update at any moment — including after its flag was cleared, modelling
the iteration in flight — and may finish at any moment (flag observed
false, camera lost, stream error). -/
inductive ShutdownStep : ShutdownState → Option Ev → ShutdownState → Prop
  | stopVideo (s : ShutdownState) (h : s.pc = 0) :
      ShutdownStep s (some Ev.stopVideo) { s with pc := 1, vRunning := false }
  | joinVideo (s : ShutdownState) (h : s.pc = 1) (ht : s.vTerm = true) :
      ShutdownStep s (some Ev.joinVideo) { s with pc := 2 }
  | stopAudio (s : ShutdownState) (h : s.pc = 2) :
      ShutdownStep s (some Ev.stopAudio) { s with pc := 3, aRunning := false }
  | joinAudio (s : ShutdownState) (h : s.pc = 3) (ht : s.aTerm = true) :
      ShutdownStep s (some Ev.joinAudio) { s with pc := 4 }
  | waitAudioAgain (s : ShutdownState) (h : s.pc = 4) (ht : s.aTerm = true) :
      ShutdownStep s none { s with pc := 5 }
  | closeWin (s : ShutdownState) (h : s.pc = 5) :
      ShutdownStep s (some Ev.closeWindow) { s with pc := 6, closed := true }
  | vEmit (s : ShutdownState) (h : s.vTerm = false) :
      ShutdownStep s (some Ev.videoEmit) s
  | vExit (s : ShutdownState) (h : s.vTerm = false) :
      ShutdownStep s none { s with vTerm := true }
  | aEmit (s : ShutdownState) (h : s.aTerm = false) :
      ShutdownStep s (some Ev.audioEmit) s
  | aExit (s : ShutdownState) (h : s.aTerm = false) :
      ShutdownStep s none { s with aTerm := true }

/-- A finite run of the shutdown protocol, collecting the labelled
events. -/
inductive ShutdownRun : ShutdownState → List Ev → ShutdownState → Prop
  | refl (s : ShutdownState) : ShutdownRun s [] s
  | obs {s s1 s2 : ShutdownState} {e : Ev} {tr : List Ev} :
      ShutdownStep s (some e) s1 → ShutdownRun s1 tr s2 →
      ShutdownRun s (e :: tr) s2
  | tau {s s1 s2 : ShutdownState} {tr : List Ev} :
      ShutdownStep s none s1 → ShutdownRun s1 tr s2 → ShutdownRun s tr s2

/-- The main-thread events still to come when `closeEvent` stands at a
given `pc`. -/
def mainFrom : Nat → List Ev
  | 0 => [Ev.stopVideo, Ev.joinVideo, Ev.stopAudio, Ev.joinAudio, Ev.closeWindow]
  | 1 => [Ev.joinVideo, Ev.stopAudio, Ev.joinAudio, Ev.closeWindow]
  | 2 => [Ev.stopAudio, Ev.joinAudio, Ev.closeWindow]
  | 3 => [Ev.joinAudio, Ev.closeWindow]
  | 4 => [Ev.closeWindow]
  | 5 => [Ev.closeWindow]
  | _ => []

/-- Invariant tying the main thread's position to the worker threads:
once `closeEvent` is past the video `wait()` the video thread has
finished, and once past the audio `wait()` the audio thread has
finished. -/
def ShutdownInv (s : ShutdownState) : Prop :=
  (2 ≤ s.pc → s.vTerm = true) ∧ (4 ≤ s.pc → s.aTerm = true)

end UCV

namespace UCV

/-! ## Theorems for claims C3 and C4 -/

/-- C3: opening the video capture handle makes at most two backend
attempts: CAP_DSHOW is always tried first, CAP_MSMF is attempted exactly
when the CAP_DSHOW attempt fails, and when both fail the attempt list is
exactly the two backends and the open gives up with no handle (no further
retries). -/
theorem c3_two_backend_fallback (opens : Backend → Bool) :
    (openVideoCapture opens).1.length ≤ 2 ∧
    (openVideoCapture opens).1.head? = some Backend.dshow ∧
    (Backend.msmf ∈ (openVideoCapture opens).1 ↔ opens Backend.dshow = false) ∧
    ((openVideoCapture opens).2 = none →
      (openVideoCapture opens).1 = [Backend.dshow, Backend.msmf] ∧
      opens Backend.dshow = false ∧ opens Backend.msmf = false) := by
  cases h1 : opens Backend.dshow <;> cases h2 : opens Backend.msmf <;>
    simp [openVideoCapture, h1, h2]

/-- Witness for `c3_two_backend_fallback`: with both backends failing the
attempt list is exactly the two-element fallback sequence. -/
theorem c3_two_backend_fallback_witness :
    (openVideoCapture (fun _ => false)).1 = [Backend.dshow, Backend.msmf] ∧
    (fun _ : Backend => false) Backend.dshow = false ∧
    (fun _ : Backend => false) Backend.msmf = false :=
  (c3_two_backend_fallback (fun _ => false)).2.2.2 rfl

/-- C4: the device-selection prompts only ever return an in-range index.
For the console prompt of capture_app.py, whatever the sequence of
(possibly non-numeric, possibly out-of-range) input lines, a returned
value `i` satisfies `0 ≤ i < max_index`.  For the GUI prompt of
guiver/main.py, a returned index is a position of the options list. -/
theorem c4_prompt_selection_in_range :
    (∀ (n : Int) (inputs : List (Option Int)) (i : Int),
        prompt_selection n inputs = some i → 0 ≤ i ∧ i < n) ∧
    (∀ (options : List String) (sel : Option (Fin options.length)) (i : Nat),
        prompt_selection_gui options sel = some i → i < options.length) := by
  constructor
  · intro n inputs
    induction inputs with
    | nil => intro i h; simp [prompt_selection] at h
    | cons o rest ih =>
      intro i h
      match o with
      | none => exact ih i h
      | some c =>
        by_cases hc : 0 ≤ c ∧ c < n
        · simp [prompt_selection, hc] at h
          exact h ▸ hc
        · simp [prompt_selection, hc] at h
          exact ih i h
  · intro options sel i h
    match sel with
    | none => simp [prompt_selection_gui] at h
    | some k =>
      simp [prompt_selection_gui] at h
      exact h ▸ k.isLt

/-- Witness for `c4_prompt_selection_in_range`: a session that enters a
non-numeric line, then 7, then 1, against 3 devices, returns 1, which is
in range; a GUI selection of item 0 out of one option is in range. -/
theorem c4_prompt_selection_in_range_witness :
    ((0 : Int) ≤ 1 ∧ (1 : Int) < 3) ∧ 0 < (["dev"] : List String).length := by
  constructor
  · exact c4_prompt_selection_in_range.1 3 [none, some 7, some 1] 1 (by decide)
  · exact c4_prompt_selection_in_range.2 ["dev"] (some ⟨0, by decide⟩) 0 rfl

/-! ## Theorems for claim C5 -/

/-- C5 counterexample: it is not the case that all four scripts perform
the full pipeline list devices → prompt → open video+audio → pump frames.
asiofinder.py (with or without an ASIO host API present) and other.py do
not. -/
theorem c5_counterexample :
    ¬ (fullPipeline capture_app_actions ∧ fullPipeline guiver_main_actions ∧
       fullPipeline (asiofinder_actions true) ∧ fullPipeline (asiofinder_actions false) ∧
       fullPipeline other_actions) := by
  unfold fullPipeline
  decide

/-- C5 amended: capture_app.py and guiver/main.py each perform, in order,
list devices → prompt user → open one video and one audio handle → pump
frames into a window; asiofinder.py only lists devices (it never prompts,
opens no handle, pumps no frames); other.py lists the cameras and, without
prompting, opens the first camera and pumps frames, but opens no audio
handle. -/
theorem c5_amended :
    fullPipeline capture_app_actions ∧ fullPipeline guiver_main_actions ∧
    (∀ b, Action.promptUser ∉ asiofinder_actions b ∧
          Action.openVideo ∉ asiofinder_actions b ∧
          Action.openAudio ∉ asiofinder_actions b ∧
          Action.pumpFrames ∉ asiofinder_actions b ∧
          Action.listDevices ∈ asiofinder_actions b) ∧
    (Action.promptUser ∉ other_actions ∧ Action.openAudio ∉ other_actions ∧
     Action.listDevices ∈ other_actions ∧ Action.openVideo ∈ other_actions ∧
     Action.pumpFrames ∈ other_actions) := by
  unfold fullPipeline
  decide

/-! ## Theorems for claim C6 -/

/-- C6: at every point during a run — that is, after any prefix of each
script's action sequence — at most one video worker thread and at most one
audio worker thread have been spawned (so at most two in total), and the
enumeration-only scripts spawn none. -/
theorem c6_at_most_two_worker_threads :
    (∀ l1 l2 : List Action, capture_app_actions = l1 ++ l2 →
        l1.count Action.spawnVideoThread ≤ 1 ∧
        l1.count Action.spawnAudioThread ≤ 1 ∧ countSpawns l1 ≤ 2) ∧
    (∀ l1 l2 : List Action, guiver_main_actions = l1 ++ l2 →
        l1.count Action.spawnVideoThread ≤ 1 ∧
        l1.count Action.spawnAudioThread ≤ 1 ∧ countSpawns l1 ≤ 2) ∧
    (∀ (b : Bool) (l1 l2 : List Action), asiofinder_actions b = l1 ++ l2 →
        countSpawns l1 = 0) ∧
    (∀ l1 l2 : List Action, other_actions = l1 ++ l2 → countSpawns l1 = 0) := by
  refine ⟨?_, ?_, ?_, ?_⟩
  · intro l1 l2 h
    have hv : l1.count Action.spawnVideoThread + l2.count Action.spawnVideoThread = 1 := by
      rw [← List.count_append, ← h]; rfl
    have ha : l1.count Action.spawnAudioThread + l2.count Action.spawnAudioThread = 1 := by
      rw [← List.count_append, ← h]; rfl
    have hs : countSpawns l1 + countSpawns l2 = 2 := by
      unfold countSpawns
      rw [← List.countP_append, ← h]; rfl
    omega
  · intro l1 l2 h
    have hv : l1.count Action.spawnVideoThread + l2.count Action.spawnVideoThread = 1 := by
      rw [← List.count_append, ← h]; rfl
    have ha : l1.count Action.spawnAudioThread + l2.count Action.spawnAudioThread = 1 := by
      rw [← List.count_append, ← h]; rfl
    have hs : countSpawns l1 + countSpawns l2 = 2 := by
      unfold countSpawns
      rw [← List.countP_append, ← h]; rfl
    omega
  · intro b l1 l2 h
    have hs : countSpawns l1 + countSpawns l2 = 0 := by
      unfold countSpawns
      rw [← List.countP_append, ← h]
      cases b <;> rfl
    omega
  · intro l1 l2 h
    have hs : countSpawns l1 + countSpawns l2 = 0 := by
      unfold countSpawns
      rw [← List.countP_append, ← h]; rfl
    omega

/-- Witness for `c6_at_most_two_worker_threads`, at the full traces
(prefix = whole list) of capture_app.py and asiofinder.py. -/
theorem c6_at_most_two_worker_threads_witness :
    (capture_app_actions.count Action.spawnVideoThread ≤ 1 ∧
     capture_app_actions.count Action.spawnAudioThread ≤ 1 ∧
     countSpawns capture_app_actions ≤ 2) ∧
    countSpawns (asiofinder_actions true) = 0 :=
  ⟨c6_at_most_two_worker_threads.1 capture_app_actions []
      (List.append_nil _).symm,
   c6_at_most_two_worker_threads.2.2.1 true (asiofinder_actions true) []
      (List.append_nil _).symm⟩

/-! ## Theorems for claim C2 -/

/-- C2 counterexample: the device-open-failure handler of
`VideoThread.run` (both backends failing, in capture_app.py and in
guiver/main.py) reports the failure but only returns from the worker
thread's `run`: it never ends the process, contradicting the claim that
every one of the three error kinds exits the process.  The audio
stream-error handlers behave the same way. -/
theorem c2_counterexample :
    reports (videoThreadRun_ca false false) = true ∧
    Eff.threadReturn ∈ videoThreadRun_ca false false ∧
    processExits (videoThreadRun_ca false false) = false ∧
    processExits (videoThreadRun_g false false) = false ∧
    processExits (audioStreamRun_ca true) = false ∧
    processExits (audioStreamRun_g true) = false := by
  decide

/-- C2 amended: every one of the three error kinds is caught locally and
reported (printed, sent to the debug window, or shown in a dialog); the
no-devices-found paths (and other.py's camera-error dialog) end the
process, while a device-open failure or an audio stream error only ends
the worker thread that hit it — the process keeps running. -/
theorem c2_amended :
    (reports (videoThreadRun_ca false false) = true ∧
     reports (videoThreadRun_g false false) = true ∧
     reports (audioStreamRun_ca true) = true ∧
     reports (audioStreamRun_g true) = true ∧
     reports captureAppMain_noVideoDevices = true ∧
     reports captureAppMain_noAudioDevices = true ∧
     reports guiverMain_noVideoDevices = true ∧
     reports guiverMain_noAudioDevices = true ∧
     reports other_noCameras = true ∧
     reports other_cameraError = true) ∧
    (processExits captureAppMain_noVideoDevices = true ∧
     processExits captureAppMain_noAudioDevices = true ∧
     processExits guiverMain_noVideoDevices = true ∧
     processExits guiverMain_noAudioDevices = true ∧
     processExits other_noCameras = true ∧
     processExits other_cameraError = true) ∧
    (processExits (videoThreadRun_ca false false) = false ∧
     Eff.threadReturn ∈ videoThreadRun_ca false false ∧
     processExits (videoThreadRun_g false false) = false ∧
     Eff.threadReturn ∈ videoThreadRun_g false false ∧
     processExits (audioStreamRun_ca true) = false ∧
     Eff.threadReturn ∈ audioStreamRun_ca true ∧
     processExits (audioStreamRun_g true) = false ∧
     Eff.threadReturn ∈ audioStreamRun_g true) := by
  decide

/-! ## Helper lemmas about the string primitives and filters -/

theorem listStartsWith_map (f : Char → Char) :
    ∀ n h : List Char, listStartsWith n h = true →
      listStartsWith (n.map f) (h.map f) = true := by
  intro n
  induction n with
  | nil => intro h _; rfl
  | cons c cs ih =>
    intro h hsw
    cases h with
    | nil => simp [listStartsWith] at hsw
    | cons d ds =>
      simp only [listStartsWith, Bool.and_eq_true, beq_iff_eq] at hsw
      simp only [List.map_cons, listStartsWith, Bool.and_eq_true, beq_iff_eq]
      exact ⟨by rw [hsw.1], ih ds hsw.2⟩

theorem listContainsSub_map (f : Char → Char) :
    ∀ h n : List Char, listContainsSub n h = true →
      listContainsSub (n.map f) (h.map f) = true := by
  intro h
  induction h with
  | nil =>
    intro n hc
    cases n with
    | nil => rfl
    | cons c cs => simp [listContainsSub, List.isEmpty] at hc
  | cons d ds ih =>
    intro n hc
    simp only [listContainsSub, Bool.or_eq_true] at hc
    simp only [List.map, listContainsSub, Bool.or_eq_true]
    rcases hc with h1 | h2
    · exact Or.inl (listStartsWith_map f n (d :: ds) h1)
    · exact Or.inr (ih n h2)

theorem list_ca_fst (devices : List AudioDev) :
    (list_audio_input_devices_filtered_ca devices).1 =
      devices.filter captureAppAudioMatch := by
  induction devices with
  | nil => rfl
  | cons d rest ih =>
    cases h : captureAppAudioMatch d <;>
      simp [list_audio_input_devices_filtered_ca, List.filter_cons, h, ih]

theorem guiverFilterFrom_fst (hostapis : List String) :
    ∀ (devices : List AudioDev) (i : Nat),
      (guiverFilterFrom hostapis devices i).1 =
        devices.filter guiverAudioMatch := by
  intro devices
  induction devices with
  | nil => intro i; rfl
  | cons d rest ih =>
    intro i
    cases h : guiverAudioMatch d <;>
      simp [guiverFilterFrom, List.filter_cons, h, ih]

/-! ## Theorems for claim C8 -/

/-- C8 counterexample: on the one-device list containing an `AVerMedia`
capture card (vendor capitalisation), the capture_app filter — which tests
`'avermedia' in dev['name']` without lowercasing — selects nothing, while
the guiver filter selects the device: the two filter functions are not
equivalent, and the capture_app one is not the case-insensitive match the
claim describes. -/
theorem c8_counterexample :
    (list_audio_input_devices_filtered_ca [averMediaDev]).1 ≠
      (list_audio_input_devices_filtered_g [averMediaDev] ["MME"]).1 := by
  decide

/-- C8 amended: the guiver filter selects exactly the devices with
positive `max_input_channels` whose name contains `'elgato'`,
`'avermedia'`, or `'evga'` case-insensitively; the capture_app filter
matches `'avermedia'` case-sensitively against the raw name, so it agrees
with the guiver filter exactly on device lists in which every name that
contains `'avermedia'` case-insensitively also contains it as a literal
lowercase substring. -/
theorem c8_amended :
    (∀ (devices : List AudioDev) (hostapis : List String),
        (list_audio_input_devices_filtered_g devices hostapis).1 =
          devices.filter specAudioMatch) ∧
    (∀ devices : List AudioDev,
        (∀ d ∈ devices, strIn "avermedia" (pyLower d.name) = true →
            strIn "avermedia" d.name = true) →
        (list_audio_input_devices_filtered_ca devices).1 =
          devices.filter specAudioMatch) := by
  constructor
  · intro devices hostapis
    rw [list_audio_input_devices_filtered_g, guiverFilterFrom_fst]
    rfl
  · intro devices hyp
    rw [list_ca_fst]
    apply List.filter_congr
    intro d hd
    have hmono : strIn "avermedia" d.name = true →
        strIn "avermedia" (pyLower d.name) = true := by
      intro h
      have := listContainsSub_map Char.toLower d.name.data "avermedia".data h
      simpa [strIn, pyLower] using this
    have hback := hyp d hd
    have key : strIn "avermedia" d.name = strIn "avermedia" (pyLower d.name) := by
      cases h1 : strIn "avermedia" d.name <;>
        cases h2 : strIn "avermedia" (pyLower d.name)
      · rfl
      · exact absurd (hback h2) (by simp [h1])
      · exact absurd (hmono h1) (by simp [h2])
      · rfl
    simp only [captureAppAudioMatch, specAudioMatch, key]

/-- Witness for `c8_amended`: on a list with a single Elgato device (whose
name has no occurrence of `avermedia` in any casing) the capture_app
filter agrees with the case-insensitive specification filter. -/
theorem c8_amended_witness :
    (list_audio_input_devices_filtered_ca [elgatoDev]).1 =
      [elgatoDev].filter specAudioMatch :=
  c8_amended.2 [elgatoDev] (by decide)

/-! ## Helper lemmas for C10 -/

theorem enumFilter_mem {α : Type} (p : α → Bool) :
    ∀ (l : List α) (k i : Nat) (x : α), (i, x) ∈ enumFilter p l k →
      k ≤ i ∧ l.get? (i - k) = some x ∧ p x = true := by
  intro l
  induction l with
  | nil => intro k i x h; simp [enumFilter] at h
  | cons d rest ih =>
    intro k i x h
    cases hp : p d
    · rw [enumFilter, hp] at h
      simp only [Bool.false_eq_true, if_false] at h
      obtain ⟨hk, hget, hpx⟩ := ih (k + 1) i x h
      refine ⟨by omega, ?_, hpx⟩
      have hidx : i - k = (i - (k + 1)) + 1 := by omega
      rw [hidx, List.get?_cons_succ]
      exact hget
    · rw [enumFilter, hp] at h
      simp only [if_true] at h
      rcases List.mem_cons.mp h with heq | htail
      · injection heq with h1 h2
        subst h1; subst h2
        exact ⟨Nat.le_refl _, by simp, hp⟩
      · obtain ⟨hk, hget, hpx⟩ := ih (k + 1) i x htail
        refine ⟨by omega, ?_, hpx⟩
        have hidx : i - k = (i - (k + 1)) + 1 := by omega
        rw [hidx, List.get?_cons_succ]
        exact hget

theorem pyListIndex_get? :
    ∀ (l : List AudioDev) (d : AudioDev), d ∈ l →
      l.get? (pyListIndex l d) = some d := by
  intro l
  induction l with
  | nil => intro d h; simp at h
  | cons a rest ih =>
    intro d h
    by_cases ha : a = d
    · simp [pyListIndex, ha]
    · have hd : d ∈ rest :=
        (List.mem_cons.mp h).resolve_left fun hda => ha hda.symm
      simp only [pyListIndex, ha, if_false, List.get?_cons_succ]
      exact ih d hd

theorem pyListIndex_first :
    ∀ (l : List AudioDev) (d : AudioDev) (q : Nat),
      q < pyListIndex l d → l.get? q ≠ some d := by
  intro l
  induction l with
  | nil => intro d q h; simp [pyListIndex] at h
  | cons a rest ih =>
    intro d q h
    by_cases ha : a = d
    · simp [pyListIndex, ha] at h
    · cases q with
      | zero =>
        simp only [List.get?_cons_zero, ne_eq, Option.some.injEq]
        exact ha
      | succ q' =>
        simp only [pyListIndex, ha, if_false] at h
        rw [List.get?_cons_succ]
        exact ih d q' (by omega)

theorem countEq_pos_of_mem :
    ∀ (l : List AudioDev) (d : AudioDev), d ∈ l → 0 < countEq d l := by
  intro l
  induction l with
  | nil => intro d h; simp at h
  | cons a rest ih =>
    intro d h
    by_cases ha : a = d
    · simp [countEq, ha]
    · have hd : d ∈ rest :=
        (List.mem_cons.mp h).resolve_left fun hda => ha hda.symm
      have := ih d hd
      simp only [countEq, ha, if_false]
      omega

theorem countEq_one_get?_unique :
    ∀ (l : List AudioDev) (d : AudioDev) (p q : Nat),
      countEq d l = 1 → l.get? p = some d → l.get? q = some d → p = q := by
  intro l
  induction l with
  | nil => intro d p q hc hp hq; simp at hp
  | cons a rest ih =>
    intro d p q hc hp hq
    by_cases ha : a = d
    · have hr : countEq d rest = 0 := by
        simp only [countEq, ha, if_true] at hc; omega
      have hnot : ∀ n, rest.get? n ≠ some d := by
        intro n hn
        have := countEq_pos_of_mem rest d (List.get?_mem hn)
        omega
      cases p with
      | zero =>
        cases q with
        | zero => rfl
        | succ q' =>
          rw [List.get?_cons_succ] at hq
          exact absurd hq (hnot q')
      | succ p' =>
        rw [List.get?_cons_succ] at hp
        exact absurd hp (hnot p')
    · have hr : countEq d rest = 1 := by
        simp only [countEq, ha, if_false] at hc; omega
      cases p with
      | zero =>
        rw [List.get?_cons_zero] at hp
        exact absurd (Option.some.inj hp) ha
      | succ p' =>
        cases q with
        | zero =>
          rw [List.get?_cons_zero] at hq
          exact absurd (Option.some.inj hq) ha
        | succ q' =>
          rw [List.get?_cons_succ] at hp hq
          have := ih d p' q' hr hp hq
          omega

/-! ## Theorems for claim C10 -/

/-- C10: recovering the global device index with
`all_devices.index(audio_devices[audio_choice_index])` is a round trip
when the chosen filtered record occurs exactly once in the enumeration:
the recovered first-occurrence index is then exactly the chosen record's
position.  `list.index` always returns the position of the first equal
record, so with duplicates the result can differ from the chosen record's
position, as the final concrete duplicated-Elgato list shows. -/
theorem c10_index_round_trip :
    (∀ (devices : List AudioDev) (p : Nat) (d : AudioDev),
        (p, d) ∈ enumFilter captureAppAudioMatch devices 0 →
        countEq d devices = 1 →
        devices.get? (pyListIndex devices d) = some d ∧
          pyListIndex devices d = p) ∧
    (∀ (devices : List AudioDev) (d : AudioDev), d ∈ devices →
        devices.get? (pyListIndex devices d) = some d ∧
        ∀ q, q < pyListIndex devices d → devices.get? q ≠ some d) ∧
    (countEq elgatoDev [elgatoDev, elgatoDev] = 2 ∧
     (1, elgatoDev) ∈ enumFilter captureAppAudioMatch [elgatoDev, elgatoDev] 0 ∧
     pyListIndex [elgatoDev, elgatoDev] elgatoDev = 0) := by
  refine ⟨?_, ?_, ?_⟩
  · intro devices p d hmem hcount
    obtain ⟨-, hget, -⟩ := enumFilter_mem _ devices 0 p d hmem
    rw [Nat.sub_zero] at hget
    have hd : d ∈ devices := List.get?_mem hget
    have h1 := pyListIndex_get? devices d hd
    exact ⟨h1, countEq_one_get?_unique devices d _ p hcount h1 hget⟩
  · intro devices d hd
    exact ⟨pyListIndex_get? devices d hd, fun q hq => pyListIndex_first devices d q hq⟩
  · decide

/-- Witness for `c10_index_round_trip`: with a single Elgato device the
chosen filtered record sits at position 0 and `list.index` recovers 0. -/
theorem c10_index_round_trip_witness :
    [elgatoDev].get? (pyListIndex [elgatoDev] elgatoDev) = some elgatoDev ∧
      pyListIndex [elgatoDev] elgatoDev = 0 :=
  c10_index_round_trip.1 [elgatoDev] 0 elgatoDev (by decide) (by decide)

/-! ## Helper lemmas for C7 -/

theorem videoCaptureLoop_stops (running capOpened readOk : Nat → Bool) (k : Nat)
    (hstop : ∀ j, k ≤ j → running j = false) :
    ∀ fuel i : Nat, k < i + fuel → 0 < fuel →
      ∃ effs, videoCaptureLoop running capOpened readOk fuel i =
          effs ++ [VideoEff.release] ∧ effs.length ≤ k - i ∧
          VideoEff.release ∉ effs := by
  intro fuel
  induction fuel with
  | zero => intro i h1 h2; omega
  | succ f ih =>
    intro i h1 _
    cases hg : running i && capOpened i
    · refine ⟨[], ?_, by simp, by simp⟩
      simp [videoCaptureLoop, hg]
    · rw [Bool.and_eq_true] at hg
      obtain ⟨hr, hc⟩ := hg
      have hik : i < k := by
        by_contra hik
        have hfalse := hstop i (by omega)
        rw [hfalse] at hr
        simp at hr
      obtain ⟨effs, heq, hlen, hmem⟩ := ih (i + 1) (by omega) (by omega)
      refine ⟨(if readOk i then [VideoEff.emitFrame] else [VideoEff.sleepRetry]) ++ effs,
        ?_, ?_, ?_⟩
      · simp only [videoCaptureLoop, hr, hc, Bool.and_self, if_true]
        rw [heq, List.append_assoc]
      · cases readOk i <;> simp <;> omega
      · cases readOk i <;> simp [hmem]

theorem audioStreamLoop_stops (running : Nat → Bool) (k : Nat)
    (hstop : ∀ j, k ≤ j → running j = false) :
    ∀ fuel i : Nat, k < i + fuel → 0 < fuel →
      ∃ effs, audioStreamLoop running fuel i =
          effs ++ [AudioEff.closeStream] ∧ effs.length ≤ k - i ∧
          AudioEff.closeStream ∉ effs := by
  intro fuel
  induction fuel with
  | zero => intro i h1 h2; omega
  | succ f ih =>
    intro i h1 _
    cases hr : running i
    · refine ⟨[], ?_, by simp, by simp⟩
      simp [audioStreamLoop, hr]
    · have hik : i < k := by
        by_contra hik
        have hfalse := hstop i (by omega)
        rw [hfalse] at hr
        simp at hr
      obtain ⟨effs, heq, hlen, hmem⟩ := ih (i + 1) (by omega) (by omega)
      refine ⟨AudioEff.sleepPoll :: effs, ?_, ?_, ?_⟩
      · simp only [audioStreamLoop, hr, if_true]
        rw [heq]
        rfl
      · simp; omega
      · simp [hmem]

/-! ## Theorems for claim C7 -/

/-- C7: each worker loop polls the boolean `running` flag at the top of
every iteration, so when `stop()` has cleared the flag — `running j =
false` for every iteration index `j ≥ k` — the video capture loop
performs at most `k` iterations in total (in particular no iteration
starts once the flag is observed cleared), terminates within any fuel
larger than `k`, and its very last effect is the `cap.release()` call;
the audio polling loop likewise terminates and closes its stream handle
last. -/
theorem c7_cooperative_cancellation
    (running capOpened readOk arunning : Nat → Bool) (k fuel : Nat)
    (hstop : ∀ j, k ≤ j → running j = false)
    (hastop : ∀ j, k ≤ j → arunning j = false)
    (hfuel : k < fuel) :
    (∃ effs, videoCaptureLoop running capOpened readOk fuel 0 =
        effs ++ [VideoEff.release] ∧ effs.length ≤ k ∧
        VideoEff.release ∉ effs) ∧
    (∃ effs, audioStreamLoop arunning fuel 0 =
        effs ++ [AudioEff.closeStream] ∧ effs.length ≤ k ∧
        AudioEff.closeStream ∉ effs) := by
  constructor
  · obtain ⟨effs, h1, h2, h3⟩ :=
      videoCaptureLoop_stops running capOpened readOk k hstop fuel 0
        (by omega) (by omega)
    exact ⟨effs, h1, by omega, h3⟩
  · obtain ⟨effs, h1, h2, h3⟩ :=
      audioStreamLoop_stops arunning k hastop fuel 0 (by omega) (by omega)
    exact ⟨effs, h1, by omega, h3⟩

/-- Witness for `c7_cooperative_cancellation`: with the flag cleared from
iteration 1 on, fuel 3 suffices and both loops release/close at the
end. -/
theorem c7_cooperative_cancellation_witness :
    (∃ effs, videoCaptureLoop (fun j => decide (j < 1)) (fun _ => true)
        (fun _ => true) 3 0 = effs ++ [VideoEff.release] ∧
        effs.length ≤ 1 ∧ VideoEff.release ∉ effs) ∧
    (∃ effs, audioStreamLoop (fun j => decide (j < 1)) 3 0 =
        effs ++ [AudioEff.closeStream] ∧ effs.length ≤ 1 ∧
        AudioEff.closeStream ∉ effs) :=
  c7_cooperative_cancellation (fun j => decide (j < 1)) (fun _ => true)
    (fun _ => true) (fun j => decide (j < 1)) 1 3
    (fun j hj => by simp only [decide_eq_false_iff_not]; omega)
    (fun j hj => by simp only [decide_eq_false_iff_not]; omega)
    (by omega)

/-! ## Helper lemmas for C1 -/

theorem shutdownStep_vTerm_mono {s s1 : ShutdownState} {l : Option Ev}
    (h : ShutdownStep s l s1) : s.vTerm = true → s1.vTerm = true := by
  cases h <;> simp_all

theorem shutdownStep_aTerm_mono {s s1 : ShutdownState} {l : Option Ev}
    (h : ShutdownStep s l s1) : s.aTerm = true → s1.aTerm = true := by
  cases h <;> simp_all

theorem shutdownStep_inv {s s1 : ShutdownState} {l : Option Ev}
    (h : ShutdownStep s l s1) (hinv : ShutdownInv s) : ShutdownInv s1 := by
  obtain ⟨h1, h2⟩ := hinv
  cases h <;> constructor <;> intro hh <;> simp_all

theorem shutdownRun_inv {s s2 : ShutdownState} {tr : List Ev}
    (h : ShutdownRun s tr s2) : ShutdownInv s → ShutdownInv s2 := by
  induction h with
  | refl s => exact id
  | obs hs hr ih => exact fun hinv => ih (shutdownStep_inv hs hinv)
  | tau hs hr ih => exact fun hinv => ih (shutdownStep_inv hs hinv)

theorem shutdownRun_main_labels {s s2 : ShutdownState} {tr : List Ev}
    (h : ShutdownRun s tr s2) :
    tr.filter isMainEv ++ mainFrom s2.pc = mainFrom s.pc := by
  induction h with
  | refl s => rfl
  | obs hs hr ih =>
    cases hs <;>
      simp_all [List.filter_cons, isMainEv, List.cons_append, mainFrom]
  | tau hs hr ih =>
    cases hs <;> simp_all [mainFrom]

theorem shutdownRun_no_emits {s s2 : ShutdownState} {tr : List Ev}
    (h : ShutdownRun s tr s2) :
    s.vTerm = true → s.aTerm = true →
      Ev.videoEmit ∉ tr ∧ Ev.audioEmit ∉ tr := by
  induction h with
  | refl s => exact fun _ _ => ⟨List.not_mem_nil _, List.not_mem_nil _⟩
  | obs hs hr ih =>
    intro hv ha
    have hv1 := shutdownStep_vTerm_mono hs hv
    have ha1 := shutdownStep_aTerm_mono hs ha
    obtain ⟨ihv, iha⟩ := ih hv1 ha1
    cases hs <;> simp_all
  | tau hs hr ih =>
    intro hv ha
    exact ih (shutdownStep_vTerm_mono hs hv) (shutdownStep_aTerm_mono hs ha)

theorem shutdownRun_append_split {s s2 : ShutdownState} {tr : List Ev}
    (h : ShutdownRun s tr s2) :
    ∀ l1 l2 : List Ev, tr = l1 ++ l2 →
      ∃ sm, ShutdownRun s l1 sm ∧ ShutdownRun sm l2 s2 := by
  induction h with
  | refl s =>
    intro l1 l2 heq
    obtain ⟨rfl, rfl⟩ := List.append_eq_nil.mp heq.symm
    exact ⟨s, ShutdownRun.refl s, ShutdownRun.refl s⟩
  | obs hs hr ih =>
    intro l1 l2 heq
    cases l1 with
    | nil =>
      simp only [List.nil_append] at heq
      subst heq
      exact ⟨_, ShutdownRun.refl _, ShutdownRun.obs hs hr⟩
    | cons x xs =>
      rw [List.cons_append] at heq
      injection heq with h1 h2
      subst h1
      obtain ⟨sm, r1, r2⟩ := ih xs l2 h2
      exact ⟨sm, ShutdownRun.obs hs r1, r2⟩
  | tau hs hr ih =>
    intro l1 l2 heq
    obtain ⟨sm, r1, r2⟩ := ih l1 l2 heq
    exact ⟨sm, ShutdownRun.tau hs r1, r2⟩

theorem shutdownRun_cons_split {s s2 : ShutdownState} {tr0 : List Ev}
    (h : ShutdownRun s tr0 s2) :
    ∀ (e : Ev) (tr : List Ev), tr0 = e :: tr →
      ∃ sa sb, ShutdownRun s [] sa ∧ ShutdownStep sa (some e) sb ∧
        ShutdownRun sb tr s2 := by
  induction h with
  | refl s => intro e tr heq; simp at heq
  | obs hs hr ih =>
    intro e tr heq
    injection heq with h1 h2
    subst h1; subst h2
    exact ⟨_, _, ShutdownRun.refl _, hs, hr⟩
  | tau hs hr ih =>
    intro e tr heq
    obtain ⟨sa, sb, r1, st, r2⟩ := ih e tr heq
    exact ⟨sa, sb, ShutdownRun.tau hs r1, st, r2⟩

/-! ## Theorems for claim C1 -/

/-- C1: in every run of the shutdown protocol that starts at the top of
`closeEvent`, the main-thread events happen in the order stop video
thread → join it → stop audio thread → join it → close window (the
observed main events are always an initial segment of that script), and
no worker-thread UI update — frame pixmap or debug/status line — occurs
anywhere after the `closeWindow` event that destroys the widgets. -/
theorem c1_shutdown_order (s0 s1 : ShutdownState) (tr : List Ev)
    (hrun : ShutdownRun s0 tr s1) (hpc : s0.pc = 0) :
    (∃ rest, tr.filter isMainEv ++ rest = mainScript) ∧
    (∀ l1 l2 : List Ev, tr = l1 ++ Ev.closeWindow :: l2 →
      Ev.videoEmit ∉ l2 ∧ Ev.audioEmit ∉ l2) := by
  constructor
  · refine ⟨mainFrom s1.pc, ?_⟩
    rw [shutdownRun_main_labels hrun, hpc]
    rfl
  · intro l1 l2 heq
    have hinv0 : ShutdownInv s0 := by
      constructor
      · intro hh; rw [hpc] at hh; exact absurd hh (by omega)
      · intro hh; rw [hpc] at hh; exact absurd hh (by omega)
    obtain ⟨sm, r1, r2⟩ :=
      shutdownRun_append_split hrun l1 (Ev.closeWindow :: l2) heq
    obtain ⟨sa, sb, rt, st, r3⟩ :=
      shutdownRun_cons_split r2 Ev.closeWindow l2 rfl
    have hinva : ShutdownInv sa :=
      shutdownRun_inv rt (shutdownRun_inv r1 hinv0)
    cases st with
    | closeWin hp =>
      have hv : sa.vTerm = true := hinva.1 (by rw [hp]; omega)
      have ha : sa.aTerm = true := hinva.2 (by rw [hp]; omega)
      exact shutdownRun_no_emits r3 hv ha

/-- Witness for `c1_shutdown_order`: a concrete interleaved run in which
the video thread emits one last frame before its flag is cleared, both
threads then finish and are joined, and the window closes last. -/
theorem c1_shutdown_order_witness :
    (∃ rest,
      ([Ev.videoEmit, Ev.stopVideo, Ev.joinVideo, Ev.stopAudio, Ev.joinAudio,
        Ev.closeWindow].filter isMainEv) ++ rest = mainScript) ∧
    (∀ l1 l2 : List Ev,
      [Ev.videoEmit, Ev.stopVideo, Ev.joinVideo, Ev.stopAudio, Ev.joinAudio,
        Ev.closeWindow] = l1 ++ Ev.closeWindow :: l2 →
      Ev.videoEmit ∉ l2 ∧ Ev.audioEmit ∉ l2) :=
  c1_shutdown_order ⟨0, false, false, true, true, false⟩
    ⟨6, true, true, false, false, true⟩
    [Ev.videoEmit, Ev.stopVideo, Ev.joinVideo, Ev.stopAudio, Ev.joinAudio,
      Ev.closeWindow]
    (by
      refine ShutdownRun.obs (ShutdownStep.vEmit _ rfl) ?_
      refine ShutdownRun.obs (ShutdownStep.stopVideo _ rfl) ?_
      refine ShutdownRun.tau (ShutdownStep.vExit _ rfl) ?_
      refine ShutdownRun.obs (ShutdownStep.joinVideo _ rfl rfl) ?_
      refine ShutdownRun.obs (ShutdownStep.stopAudio _ rfl) ?_
      refine ShutdownRun.tau (ShutdownStep.aExit _ rfl) ?_
      refine ShutdownRun.obs (ShutdownStep.joinAudio _ rfl rfl) ?_
      refine ShutdownRun.tau (ShutdownStep.waitAudioAgain _ rfl rfl) ?_
      refine ShutdownRun.obs (ShutdownStep.closeWin _ rfl) ?_
      exact ShutdownRun.refl _)
    rfl

/-! ## Helper lemmas for C9 -/

theorem rtDevLoop_eq (apiName api : String) :
    ∀ (devs : List RtDev) (i : Nat),
      rtDevLoop apiName api devs i =
        ((enumFilter rtInputMatch devs i).map (fun q => q.2),
         (enumFilter rtInputMatch devs i).map
           (fun q => q.2.name ++ " (" ++ apiName ++ ")"),
         (enumFilter rtInputMatch devs i).map (fun q => q.1),
         (enumFilter rtInputMatch devs i).map (fun _ => api)) := by
  intro devs
  induction devs with
  | nil => intro i; rfl
  | cons d rest ih =>
    intro i
    cases hd : rtInputMatch d <;>
      simp [rtDevLoop, enumFilter, hd, ih]

theorem rtOuterLoop_eq (apis : List String) (devsOf : String → List RtDev) :
    ∀ prefNames : List String,
      rtOuterLoop apis devsOf prefNames =
        ((rtEntries apis devsOf prefNames).map (fun e => e.2.2.2),
         (rtEntries apis devsOf prefNames).map
           (fun e => e.2.2.2.name ++ " (" ++ e.1 ++ ")"),
         (rtEntries apis devsOf prefNames).map (fun e => e.2.2.1),
         (rtEntries apis devsOf prefNames).map (fun e => e.2.1)) := by
  intro prefNames
  induction prefNames with
  | nil => rfl
  | cons an rest ih =>
    cases hapi : get_rtmixer_api_by_name apis an with
    | none => simp [rtOuterLoop, rtEntries, hapi, ih]
    | some a =>
      simp [rtOuterLoop, rtEntries, hapi, ih, rtDevLoop_eq,
        List.map_append, List.map_map, Function.comp_def]

theorem list_rtmixer_eq (installed : Bool) (apis : List String)
    (devsOf : String → List RtDev) (prefNames : List String) :
    list_rtmixer_devices_by_apis installed apis devsOf prefNames =
      (((if installed then rtEntries apis devsOf prefNames else []).map
          (fun e => e.2.2.2)),
       ((if installed then rtEntries apis devsOf prefNames else []).map
          (fun e => e.2.2.2.name ++ " (" ++ e.1 ++ ")")),
       ((if installed then rtEntries apis devsOf prefNames else []).map
          (fun e => e.2.2.1)),
       ((if installed then rtEntries apis devsOf prefNames else []).map
          (fun e => e.2.1))) := by
  cases installed
  · rfl
  · simp [list_rtmixer_devices_by_apis, rtOuterLoop_eq]

theorem rtEntries_mem (apis : List String) (devsOf : String → List RtDev) :
    ∀ (prefNames : List String) (e : String × String × Nat × RtDev),
      e ∈ rtEntries apis devsOf prefNames →
      (devsOf e.2.1).get? e.2.2.1 = some e.2.2.2 ∧
        rtInputMatch e.2.2.2 = true := by
  intro prefNames
  induction prefNames with
  | nil => intro e h; simp [rtEntries] at h
  | cons an rest ih =>
    intro e h
    rw [rtEntries] at h
    rcases List.mem_append.mp h with hl | hr
    · cases hapi : get_rtmixer_api_by_name apis an with
      | none => rw [hapi] at hl; simp at hl
      | some a =>
        rw [hapi] at hl
        simp only [List.mem_map] at hl
        obtain ⟨q, hq, rfl⟩ := hl
        obtain ⟨-, hget, hp⟩ :=
          enumFilter_mem rtInputMatch (devsOf a) 0 q.1 q.2 (by simpa using hq)
        rw [Nat.sub_zero] at hget
        exact ⟨hget, hp⟩
    · exact ih e hr

theorem guiverFilterFrom_eq (hostapis : List String) :
    ∀ (devs : List AudioDev) (i : Nat),
      guiverFilterFrom hostapis devs i =
        ((enumFilter guiverAudioMatch devs i).map (fun q => q.2),
         (enumFilter guiverAudioMatch devs i).map
           (fun q => q.2.name ++ " (" ++ hostapis.getD q.2.hostapi "" ++ ")"),
         (enumFilter guiverAudioMatch devs i).map (fun q => q.1)) := by
  intro devs
  induction devs with
  | nil => intro i; rfl
  | cons d rest ih =>
    intro i
    cases hd : guiverAudioMatch d <;>
      simp [guiverFilterFrom, enumFilter, hd, ih]

/-! ## Theorems for claim C9 -/

/-- C9: in guiver/main the combined audio list keeps its parallel arrays
aligned: `all_audio_names` and `device_source` have the same length, the
first `len(rtmixer_names)` entries are marked rtmixer and the rest
sounddevice; for every chosen index marked sounddevice,
`audio_choice - len(rtmixer_indices)` is a valid index into
`fallback_indices` and yields the global sounddevice index of exactly the
filtered device whose decorated name was displayed at the chosen row; and
for every chosen index marked rtmixer, `rtmixer_indices[audio_choice]`
and `rtmixer_apis[audio_choice]` are in range and name the device row
displayed at the chosen row. -/
theorem c9_parallel_arrays
    (installed : Bool) (apis : List String) (devsOf : String → List RtDev)
    (prefNames : List String) (devices : List AudioDev) (hostapis : List String)
    (rtDevs : List RtDev) (rtNames : List String) (rtIdxs : List Nat)
    (rtApis : List String) (fbDevs : List AudioDev) (fbNames : List String)
    (fbIdxs : List Nat) (allNames : List String) (src : List Src)
    (hrt : list_rtmixer_devices_by_apis installed apis devsOf prefNames =
      (rtDevs, rtNames, rtIdxs, rtApis))
    (hfb : list_audio_input_devices_filtered_g devices hostapis =
      (fbDevs, fbNames, fbIdxs))
    (hcomb : combineAudioLists rtNames fbNames = (allNames, src)) :
    allNames.length = src.length ∧
    rtIdxs.length = rtNames.length ∧
    rtApis.length = rtNames.length ∧
    (∀ i, i < rtNames.length → src.get? i = some Src.rtmixer) ∧
    (∀ i, rtNames.length ≤ i → i < allNames.length →
        src.get? i = some Src.sounddevice) ∧
    (∀ choice, src.get? choice = some Src.sounddevice →
        rtIdxs.length ≤ choice ∧
        choice - rtIdxs.length < fbIdxs.length ∧
        ∃ gi d, fbIdxs.get? (choice - rtIdxs.length) = some gi ∧
          devices.get? gi = some d ∧ guiverAudioMatch d = true ∧
          allNames.get? choice =
            some ((d.name ++ " (" ++ hostapis.getD d.hostapi "" ++ ")") ++
              " [SoundDevice]")) ∧
    (∀ choice, src.get? choice = some Src.rtmixer →
        choice < rtIdxs.length ∧ choice < rtApis.length ∧
        ∃ li api d n, rtIdxs.get? choice = some li ∧
          rtApis.get? choice = some api ∧
          (devsOf api).get? li = some d ∧ 0 < d.inputChannels ∧
          rtNames.get? choice = some n ∧
          allNames.get? choice = some (n ++ " [RtMixer]")) := by
  rw [list_rtmixer_eq] at hrt
  simp only [Prod.mk.injEq] at hrt
  obtain ⟨hD, hN, hI, hA⟩ := hrt
  subst hD; subst hN; subst hI; subst hA
  rw [list_audio_input_devices_filtered_g, guiverFilterFrom_eq] at hfb
  simp only [Prod.mk.injEq] at hfb
  obtain ⟨hfD, hfN, hfI⟩ := hfb
  subst hfD; subst hfN; subst hfI
  simp only [combineAudioLists, Prod.mk.injEq] at hcomb
  obtain ⟨hAll, hSrc⟩ := hcomb
  subst hAll; subst hSrc
  have hRmem : ∀ e ∈ (if installed then rtEntries apis devsOf prefNames else []),
      (devsOf e.2.1).get? e.2.2.1 = some e.2.2.2 ∧
        rtInputMatch e.2.2.2 = true := by
    cases installed
    · intro e he; simp at he
    · intro e he
      exact rtEntries_mem apis devsOf prefNames e (by simpa using he)
  have hFmem : ∀ q ∈ enumFilter guiverAudioMatch devices 0,
      devices.get? q.1 = some q.2 ∧ guiverAudioMatch q.2 = true := by
    intro q hq
    obtain ⟨-, hget, hp⟩ :=
      enumFilter_mem guiverAudioMatch devices 0 q.1 q.2 (by simpa using hq)
    rw [Nat.sub_zero] at hget
    exact ⟨hget, hp⟩
  generalize hRg : (if installed then rtEntries apis devsOf prefNames else []) = R
    at hRmem ⊢
  generalize hFg : enumFilter guiverAudioMatch devices 0 = F at hFmem ⊢
  have h4 : ∀ i, i < (R.map fun e => e.2.2.2.name ++ " (" ++ e.1 ++ ")").length →
      ((R.map fun e => e.2.2.2.name ++ " (" ++ e.1 ++ ")").map (fun _ => Src.rtmixer) ++
        (F.map fun q =>
          q.2.name ++ " (" ++ hostapis.getD q.2.hostapi "" ++ ")").map
            (fun _ => Src.sounddevice)).get? i = some Src.rtmixer := by
    intro i hi
    rw [List.get?_append (by simpa using hi), List.get?_map,
      List.get?_eq_get (by simpa using hi)]
    rfl
  have h5 : ∀ i, (R.map fun e => e.2.2.2.name ++ " (" ++ e.1 ++ ")").length ≤ i →
      i < R.length + F.length →
      ((R.map fun e => e.2.2.2.name ++ " (" ++ e.1 ++ ")").map (fun _ => Src.rtmixer) ++
        (F.map fun q =>
          q.2.name ++ " (" ++ hostapis.getD q.2.hostapi "" ++ ")").map
            (fun _ => Src.sounddevice)).get? i = some Src.sounddevice := by
    intro i hge hlt
    rw [List.get?_append_right (by simpa using hge), List.get?_map]
    have hj : i - R.length <
        (F.map fun q =>
          q.2.name ++ " (" ++ hostapis.getD q.2.hostapi "" ++ ")").length := by
      have hge' : R.length ≤ i := by simpa using hge
      simp only [List.length_map]
      omega
    rw [List.get?_eq_get (by simpa using hj)]
    rfl
  refine ⟨by simp, by simp, by simp, h4, by simpa using h5, ?_, ?_⟩
  · intro choice hch
    have hlt_src : choice < R.length + F.length := by
      have := (List.get?_eq_some.mp hch).1
      simpa using this
    have hge : R.length ≤ choice := by
      by_contra hcon
      push_neg at hcon
      rw [h4 choice (by simpa using hcon)] at hch
      simp at hch
    have hjlt : choice - R.length < F.length := by omega
    obtain ⟨q, hq⟩ : ∃ q, F.get? (choice - R.length) = some q :=
      ⟨F.get ⟨choice - R.length, hjlt⟩, List.get?_eq_get hjlt⟩
    obtain ⟨hqdev, hqmatch⟩ := hFmem q (List.get?_mem hq)
    refine ⟨by simpa using hge, by simpa using hjlt, q.1, q.2, ?_, hqdev, hqmatch, ?_⟩
    · rw [List.length_map, List.get?_map, hq]
      rfl
    · rw [List.get?_append_right (by simpa using hge), List.get?_map, List.get?_map]
      simp only [List.length_map]
      rw [hq]
      rfl
  · intro choice hch
    have hlt_src : choice < R.length + F.length := by
      have := (List.get?_eq_some.mp hch).1
      simpa using this
    have hlt : choice < R.length := by
      by_contra hcon
      push_neg at hcon
      rw [h5 choice (by simpa using hcon) hlt_src] at hch
      simp at hch
    obtain ⟨e, he⟩ : ∃ e, R.get? choice = some e :=
      ⟨R.get ⟨choice, hlt⟩, List.get?_eq_get hlt⟩
    obtain ⟨hedev, hematch⟩ := hRmem e (List.get?_mem he)
    have hchan : 0 < e.2.2.2.inputChannels := by
      simp only [rtInputMatch, decide_eq_true_eq] at hematch
      exact hematch
    refine ⟨by simpa using hlt, by simpa using hlt,
      e.2.2.1, e.2.1, e.2.2.2, e.2.2.2.name ++ " (" ++ e.1 ++ ")",
      ?_, ?_, hedev, hchan, ?_, ?_⟩
    · rw [List.get?_map, he]; rfl
    · rw [List.get?_map, he]; rfl
    · rw [List.get?_map, he]; rfl
    · rw [List.get?_append (by simpa using hlt), List.get?_map, List.get?_map, he]
      rfl

/-- Witness for `c9_parallel_arrays`: one ASIO rtmixer device and one
Elgato sounddevice fallback device combine into a two-entry audio list
whose name and source arrays have equal length. -/
theorem c9_parallel_arrays_witness :
    (["Elgato Cam Link ASIO (ASIO) [RtMixer]",
      "Elgato Sound Capture (MME) [SoundDevice]"] : List String).length =
      ([Src.rtmixer, Src.sounddevice] : List Src).length :=
  (c9_parallel_arrays true ["ASIO", "MME", "WASAPI", "WDM-KS", "DirectSound"]
    (fun a => if a = "ASIO" then [⟨"Elgato Cam Link ASIO", 2⟩] else [])
    ["ASIO", "WASAPI", "WDM-KS", "DirectSound"]
    [⟨"Elgato Sound Capture", 2, 0⟩] ["MME"]
    [⟨"Elgato Cam Link ASIO", 2⟩] ["Elgato Cam Link ASIO (ASIO)"] [0] ["ASIO"]
    [⟨"Elgato Sound Capture", 2, 0⟩] ["Elgato Sound Capture (MME)"] [0]
    ["Elgato Cam Link ASIO (ASIO) [RtMixer]",
      "Elgato Sound Capture (MME) [SoundDevice]"]
    [Src.rtmixer, Src.sounddevice]
    rfl rfl rfl).1

end UCV
